import Mathlib

/-!
Shallow embedding of fake_web_events/simulation.py: the class Simulation and
the module level helper json_serial, together with models of the external
collaborators the spec documents (the Event session object, the stdlib
random draws and the stdlib json serializer).  Simulated datetimes are
rational numbers counting seconds; every stdlib random draw is passed in as
an explicit input with its documented range.
-/

/-- Modelled from the spec: a calendar timestamp as the external datetime
collaborator hands it to json_serial (year-month-day hour:minute:second). -/
structure DT where
  year : Nat
  month : Nat
  day : Nat
  hour : Nat
  minute : Nat
  second : Nat
deriving DecidableEq

/-- Two-digit zero padding used by the ISO-8601 rendering. -/
def pad2 (n : Nat) : String :=
  if n < 10 then "0" ++ toString n else toString n

/-- Modelled from the spec: datetime.isoformat for whole-second timestamps,
the ISO-8601 textual form YYYY-MM-DDTHH:MM:SS. -/
def DT.isoformat (d : DT) : String :=
  toString d.year ++ "-" ++ pad2 d.month ++ "-" ++ pad2 d.day ++ "T" ++
    pad2 d.hour ++ ":" ++ pad2 d.minute ++ ":" ++ pad2 d.second

/-- Modelled from the spec: the universe of Python values a session record
can hold: the json-native primitives, a datetime, or a value of some other
type (carrying the text Python prints for that type). -/
inductive PyVal where
  | pystr (s : String)
  | pyint (n : Int)
  | pybool (b : Bool)
  | pynone
  | pydt (d : DT)
  | pyother (tname : String)
deriving DecidableEq

/-- The text Python interpolates for type(obj) in an error message. -/
def PyVal.typeName : PyVal → String
  | .pystr _ => "class str"
  | .pyint _ => "class int"
  | .pybool _ => "class bool"
  | .pynone => "class NoneType"
  | .pydt _ => "class datetime.datetime"
  | .pyother t => t

/-- Escape backslash and double quote, the fragment of json string escaping
the session records exercise. -/
def jsonEscape (s : String) : String :=
  (s.replace "\\" "\\\\").replace "\"" "\\\""

/-- A json string literal. -/
def jsonQuote (s : String) : String :=
  "\"" ++ jsonEscape s ++ "\""

/-- json_serial (simulation.py lines 181-186): turn a datetime into its
ISO-8601 text; refuse any other type with an error naming it. -/
def json_serial (v : PyVal) : Except String PyVal :=
  match v with
  | .pydt d => .ok (.pystr d.isoformat)
  | v => .error ("Type " ++ v.typeName ++ " not serializable")

/-- Modelled from the spec: stdlib json.dumps on one value: json-native
primitives serialize directly; any other value goes through the default
hook, whose returned value (a string here) is then serialized. -/
def pyJsonVal (dflt : PyVal → Except String PyVal) : PyVal → Except String String
  | .pystr s => .ok (jsonQuote s)
  | .pyint n => .ok (toString n)
  | .pybool b => .ok (if b then "true" else "false")
  | .pynone => .ok "null"
  | v =>
    match dflt v with
    | .error e => .error e
    | .ok (.pystr s) => .ok (jsonQuote s)
    | .ok (.pyint n) => .ok (toString n)
    | .ok (.pybool b) => .ok (if b then "true" else "false")
    | .ok .pynone => .ok "null"
    | .ok w => .error ("Type " ++ w.typeName ++ " not serializable")

/-- Modelled from the spec: stdlib json.dumps over the entries of a flat
record, in iteration order; the first value that neither serializes
natively nor is accepted by the default hook aborts the serialization. -/
def pyJsonEntries (dflt : PyVal → Except String PyVal) :
    List (String × PyVal) → Except String (List String)
  | [] => .ok []
  | kv :: rest =>
    match pyJsonVal dflt kv.2 with
    | .error e => .error e
    | .ok sv =>
      match pyJsonEntries dflt rest with
      | .error e => .error e
      | .ok tail => .ok ((jsonQuote kv.1 ++ ": " ++ sv) :: tail)

/-- Modelled from the spec: stdlib json.dumps of a flat record. -/
def pyJsonDumps (dflt : PyVal → Except String PyVal)
    (record : List (String × PyVal)) : Except String String :=
  match pyJsonEntries dflt record with
  | .error e => .error e
  | .ok parts => .ok ("\x7b" ++ String.intercalate ", " parts ++ "\x7d")

/-- Modelled from the spec: the Event session object of fake_web_events.event
(not under src/).  The collaborator contract gives it a current timestamp, an
active flag and the transition-describing fields the run loop reads:
is_new_page, an optional custom_event name, the modal_event name, the modal
flag and the yield_modal preference.  sid models Python object identity
(never changed by in-place mutation); it is what list.remove compares. -/
structure Event where
  sid : Nat
  current_timestamp : ℚ
  active : Bool
  is_new_page : Bool
  custom_event : Option String
  modal_event : String
  modal : Bool
  yield_modal : Bool
deriving DecidableEq

/-- Modelled from the spec: SessionState.isActive reports the active flag. -/
def Event.is_active (e : Event) : Bool := e.active

/-- The complement of Event.is_active, for counting pruned sessions. -/
def notActive (e : Event) : Bool := !e.active

/-- The two emission forms of yield_event: serialized text or the structured
record itself. -/
inductive PyOut where
  | text (s : String)
  | record (r : List (String × PyVal))
deriving DecidableEq

/-- The state of simulation.py's class Simulation: the time attributes, the
configuration read by the modelled operations and the registry of current
sessions.  Timestamps are rational seconds; config_visits is the
visits_per_hour table indexed by hour of day.  (user_pool and qty_events,
which no modelled operation reads, are omitted.) -/
structure Simulation where
  init_time : ℚ
  cur_time : ℚ
  stop_time : ℚ
  batch_size : ℤ
  sessions_per_day : ℚ
  rate : ℚ
  growth : Option String
  always_forward : Bool
  yield_as_json : Bool
  config_visits : Nat → ℚ
  cur_sessions : List Event

/-- Python int() on a number: truncation toward zero. -/
def pyTruncInt (q : ℚ) : ℤ := if 0 ≤ q then ⌊q⌋ else ⌈q⌉

/-- Python q % 1: the remainder takes the sign of the modulus, so this is
the fractional part, in [0, 1). -/
def pyMod1 (q : ℚ) : ℚ := q - ⌊q⌋

/-- Modelled from the spec: stdlib randrange(start, stop) with the uniform
index draw k supplied: an integer uniform in [start, stop), a ValueError
(none) on an empty range. -/
def randrange (a b : ℤ) (k : Nat) : Option ℤ :=
  if 0 < b - a then some (a + (k : ℤ) % (b - a)) else none

/-- datetime.hour of a timestamp counted in seconds from a midnight. -/
def hourOf (t : ℚ) : Nat := (⌊t / 3600⌋ % 24).toNat

namespace Simulation

/-- get_steps_per_hour (lines 82-86): 3600 / batch_size, a ZeroDivisionError
(modelled as none) when batch_size is 0. -/
def get_steps_per_hour (b : ℤ) : Option ℚ :=
  if b = 0 then none else some (3600 / (b : ℚ))

/-- get_rate_per_step (lines 88-93): the visits_per_hour entry for the
current hour, times sessions_per_day, divided by the steps per hour. -/
def get_rate_per_step (s : Simulation) : Option ℚ :=
  (get_steps_per_hour s.batch_size).map
    (fun sph => s.config_visits (hourOf s.cur_time) * s.sessions_per_day / sph)

/-- get_curr_duration (lines 65-69). -/
def get_curr_duration (s : Simulation) : ℚ := s.cur_time - s.init_time

/-- int(self.batch_size * 0.3) of wait (lines 99-100). -/
def maxJitter (b : ℤ) : ℤ := pyTruncInt ((b : ℚ) * (3 / 10))

/-- min_range of wait (line 99): 0 when always_forward, else the negated
jitter bound. -/
def minRange (s : Simulation) : ℤ :=
  if s.always_forward then 0 else -(maxJitter s.batch_size)

/-- wait (lines 95-102): advance cur_time by batch_size plus a random jitter
drawn with randrange, then recompute the rate; k is the uniform draw behind
randrange. -/
def wait (s : Simulation) (k : Nat) : Option Simulation :=
  (randrange (minRange s) (maxJitter s.batch_size) k).bind fun j =>
    (get_rate_per_step
        { s with cur_time := s.cur_time + (s.batch_size : ℚ) + (j : ℚ) }).map
      fun r => { s with cur_time := s.cur_time + (s.batch_size : ℚ) + (j : ℚ), rate := r }

/-- The growth branch of randomize_sess_ts (lines 108-116): given the
triangular draw t, the exponential draw x and the uniform draw u (all
supplied by the stdlib random collaborator), the factor that scales the
horizon. -/
def growth_shape_value (growth : Option String) (t x u : ℚ) : ℚ :=
  if growth = some "lineal" ∨ growth = some "lin" ∨ growth = some "linear" then
    1 - t
  else if growth = some "exp" ∨ growth = some "exponential" then
    (if x < 8 then (8 - x) / 8 else 1)
  else
    u

/-- randomize_sess_ts (lines 104-119). -/
def randomize_sess_ts (s : Simulation) (t x u : ℚ) : ℚ :=
  s.init_time + growth_shape_value s.growth t x u * (s.stop_time - s.init_time)

/-- Modelled from the spec: stdlib choices([1, 0], cum_weights=[f, 1]) at
the uniform draw u: bisecting [f] at u picks 1 exactly when u < f. -/
def choices_1_0 (f u : ℚ) : ℤ := if u < f then 1 else 0

/-- create_sessions (lines 121-136): append int(rate) new sessions plus one
more with probability rate % 1; gen i stands for the i-th freshly built
Event (the Event constructor and user_pool.get_user are external). -/
def create_sessions (s : Simulation) (u : ℚ) (gen : Nat → Event) : Simulation :=
  let n_users := pyTruncInt s.rate + choices_1_0 (pyMod1 s.rate) u
  { s with cur_sessions := s.cur_sessions ++ (List.range n_users.toNat).map gen }

/-- In-place mutation of a session object: upd models the external
session.update, and mutation can never change the object identity sid. -/
def mutate (upd : Event → ℚ → Bool → Event) (e : Event) (ts : ℚ) (fwd : Bool) : Event :=
  { upd e ts fwd with sid := e.sid }

/-- One position of the registry list after the object with identity sid was
mutated into e'. -/
def setOne (sid : Nat) (e' : Event) (x : Event) : Event :=
  if x.sid = sid then e' else x

/-- In-place mutation of the object with identity sid, seen through the
registry list. -/
def setBySid (sid : Nat) (e' : Event) (l : List Event) : List Event :=
  l.map (setOne sid e')

/-- list.remove(session): drop the first element with the object identity. -/
def removeFirstSid (sid : Nat) : List Event → List Event
  | [] => []
  | x :: xs => if x.sid = sid then xs else x :: removeFirstSid sid xs

/-- The for-loop of update_all_sessions (lines 142-145): iterate over the
snapshot while the registry cur mutates alongside: update each session in
place at its own timestamp plus the elapsed duration, then remove it from
the registry when it reports inactive. -/
def update_sessions_loop (upd : Event → ℚ → Bool → Event) (elapsed : ℚ) (fwd : Bool) :
    List Event → List Event → List Event
  | [], cur => cur
  | e :: rest, cur =>
    let e' := mutate upd e (e.current_timestamp + elapsed) fwd
    let cur1 := setBySid e.sid e' cur
    let cur2 := if e'.is_active then cur1 else removeFirstSid e.sid cur1
    update_sessions_loop upd elapsed fwd rest cur2

/-- update_all_sessions (lines 138-145): list(self.cur_sessions) snapshots
the registry, then the loop above runs over the snapshot. -/
def update_all_sessions (upd : Event → ℚ → Bool → Event) (s : Simulation) : Simulation :=
  { s with cur_sessions :=
      (update_sessions_loop upd (get_curr_duration s) s.always_forward
        s.cur_sessions s.cur_sessions) }

/-- yield_event (lines 147-154), applied to the session's structured record
(session.asdict() is external): json.dumps with default=json_serial when
yield_as_json is set, the record itself otherwise. -/
def yield_event (yield_as_json : Bool) (record : List (String × PyVal)) :
    Except String PyOut :=
  if yield_as_json then
    match pyJsonDumps json_serial record with
    | .error e => .error e
    | .ok s => .ok (.text s)
  else
    .ok (.record record)

/-- The per-session emission decision of run (lines 165-178). -/
def run_emits (e : Event) : Bool :=
  if e.is_new_page = true then true
  else if e.is_new_page = false ∧ e.custom_event ≠ some "pageview" then
    if some e.modal_event ≠ e.custom_event then true
    else !(e.modal.xor e.yield_modal)
  else false

/-- One iteration of the run loop (lines 161-178): advance and prune the
sessions, sample arrivals, advance the clock, then surface every current
session the decision run_emits selects (each then formatted by
yield_event).  A failing wait aborts the iteration before anything is
emitted. -/
def run_step (upd : Event → ℚ → Bool → Event) (s : Simulation) (u : ℚ)
    (gen : Nat → Event) (k : Nat) : Option (Simulation × List Event) :=
  let s1 := update_all_sessions upd s
  let s2 := create_sessions s1 u gen
  match wait s2 k with
  | none => none
  | some s3 => some (s3, s3.cur_sessions.filter run_emits)

end Simulation

/-- __init__ (lines 17-47) with the external collaborators elided: the
assert on sim_days, the time attributes, and the initial rate computation
(which divides by batch_size and so raises exactly when it is zero).
init_time is the already-resolved start-time argument; the registry starts
empty. -/
def simulation_init (sessions_per_day : ℚ) (batch_size : ℤ) (init_time : ℚ)
    (sim_days : ℚ) (growth : Option String) (always_forward yield_as_json : Bool)
    (config_visits : Nat → ℚ) : Option Simulation :=
  if 0 < sim_days then
    (Simulation.get_rate_per_step
        { init_time := init_time
          cur_time := init_time
          stop_time := init_time + sim_days * 86400
          batch_size := batch_size
          sessions_per_day := sessions_per_day
          rate := 0
          growth := growth
          always_forward := always_forward
          yield_as_json := yield_as_json
          config_visits := config_visits
          cur_sessions := [] }).map
      fun r =>
        { init_time := init_time
          cur_time := init_time
          stop_time := init_time + sim_days * 86400
          batch_size := batch_size
          sessions_per_day := sessions_per_day
          rate := r
          growth := growth
          always_forward := always_forward
          yield_as_json := yield_as_json
          config_visits := config_visits
          cur_sessions := [] }
  else none

/-- Modelled from Python semantics of the def line
init_time: datetime = datetime.now() (line 22): a default argument
expression is evaluated once, when the module is imported, not at each
construction. -/
def moduleDefaultInitTime (import_now : ℚ) : ℚ := import_now

/-- The init_time a construction at wall-clock moment construction_now ends
up with: the explicit argument when one is given, else the module-level
default (which does not depend on construction_now). -/
def initTimeArg (import_now construction_now : ℚ) (given : Option ℚ) : ℚ :=
  given.getD (moduleDefaultInitTime import_now)

/-- Iterated wait calls, one uniform draw per call. -/
def wait_iter (s : Simulation) : List Nat → Option Simulation
  | [] => some s
  | k :: ks => (Simulation.wait s k).bind fun s' => wait_iter s' ks

/-- The emission predicate exactly as the claim states it, with customEvent
required to be set. -/
def emitsSpecC1 (e : Event) : Prop :=
  e.is_new_page = true ∨
    (e.is_new_page = false ∧ e.custom_event.isSome = true ∧
      e.custom_event ≠ some "pageview" ∧
      (e.custom_event ≠ some e.modal_event ∨
        (e.custom_event = some e.modal_event ∧ e.modal = e.yield_modal)))

instance (e : Event) : Decidable (emitsSpecC1 e) := by
  unfold emitsSpecC1; infer_instance

/-- The amended emission predicate: as the claim, but without requiring
customEvent to be set (an unset customEvent compares unequal to the literal
pageview and to the modal event name, exactly as the code's != does). -/
def emitsSpecC1Amended (e : Event) : Prop :=
  e.is_new_page = true ∨
    (e.is_new_page = false ∧ e.custom_event ≠ some "pageview" ∧
      (e.custom_event ≠ some e.modal_event ∨ e.modal = e.yield_modal))

instance (e : Event) : Decidable (emitsSpecC1Amended e) := by
  unfold emitsSpecC1Amended; infer_instance

/-- The three growth shapes. -/
inductive GrowthShape where
  | linearShape
  | expShape
  | uniformShape
deriving DecidableEq

/-- The growth shape the dispatch of randomize_sess_ts (lines 110-116)
selects for a growth mode string. -/
def growthShapeOf (growth : Option String) : GrowthShape :=
  if growth = some "lineal" ∨ growth = some "lin" ∨ growth = some "linear" then
    .linearShape
  else if growth = some "exp" ∨ growth = some "exponential" then
    .expShape
  else
    .uniformShape

/-- The factor a shape prescribes for the draws t, x, u. -/
def shapeValue (g : GrowthShape) (t x u : ℚ) : ℚ :=
  match g with
  | .linearShape => 1 - t
  | .expShape => if x < 8 then (8 - x) / 8 else 1
  | .uniformShape => u

/-- One advance of one session as the spec describes it: update at the
session's own timestamp plus the elapsed simulated duration, with the
forward flag, identity preserved. -/
def stepSession (upd : Event → ℚ → Bool → Event) (elapsed : ℚ) (fwd : Bool)
    (e : Event) : Event :=
  Simulation.mutate upd e (e.current_timestamp + elapsed) fwd

/-- The uniform draws in [0, 1) that make create_sessions add the extra
session: an event of probability exactly c under the uniform law. -/
def extraDrawSet (c : ℚ) : Set ℝ :=
  {x : ℝ | x ∈ Set.Ico (0 : ℝ) 1 ∧ x < (c : ℝ)}

/-- The type name of the first record value that is neither a json primitive
nor a datetime, if any. -/
def firstUnsupported : List (String × PyVal) → Option String
  | [] => none
  | kv :: rest =>
    match kv.2 with
    | .pyother t => some t
    | _ => firstUnsupported rest

/-- How the spec renders one supported value: primitives as json text,
datetimes as their quoted ISO-8601 form. -/
def specRenderVal : PyVal → String
  | .pystr s => jsonQuote s
  | .pyint n => toString n
  | .pybool b => if b then "true" else "false"
  | .pynone => "null"
  | .pydt d => jsonQuote d.isoformat
  | .pyother _ => ""

/-- One rendered record entry, the spec's way. -/
def specEntry (kv : String × PyVal) : String :=
  jsonQuote kv.1 ++ ": " ++ specRenderVal kv.2

/-- A flat visits_per_hour table for concrete instances. -/
def sampleConfig : Nat → ℚ := fun _ => 1

/-- A session whose custom event is unset (None), reached by the run loop's
emission decision. -/
def c1Session : Event :=
  { sid := 0, current_timestamp := 0, active := true, is_new_page := false,
    custom_event := none, modal_event := "signup", modal := false,
    yield_modal := false }

/-- A concrete simulation state: step 10 s, one simulated day, flat rate. -/
def waitSampleState : Simulation :=
  { init_time := 0, cur_time := 0, stop_time := 86400, batch_size := 10,
    sessions_per_day := 360, rate := 1, growth := none, always_forward := true,
    yield_as_json := false, config_visits := sampleConfig, cur_sessions := [] }

/-- waitSampleState after one wait with draw 5 (jitter 2). -/
def waitSampleState2 : Simulation :=
  { waitSampleState with cur_time := 12, rate := 1 }

/-- waitSampleState with a fractional rate, for the arrival sampler. -/
def c2State : Simulation := { waitSampleState with rate := 3 / 2 }

/-- Concrete fresh sessions for the arrival sampler. -/
def sampleGen : Nat → Event := fun i => { c1Session with sid := i + 100 }

/-- A concrete session update: move to the given timestamp and stay active
exactly when it is below 50. -/
def c7Upd : Event → ℚ → Bool → Event :=
  fun e ts _ => { e with current_timestamp := ts, active := decide (ts < 50) }

/-- Registry entry that stays active under c7Upd at elapsed 20. -/
def c7SessionA : Event := { c1Session with sid := 1, current_timestamp := 10 }

/-- Registry entry that goes inactive under c7Upd at elapsed 20. -/
def c7SessionB : Event := { c1Session with sid := 2, current_timestamp := 60 }

/-- A state holding two sessions with distinct identities, 20 s elapsed. -/
def c7State : Simulation :=
  { waitSampleState with cur_time := 20, cur_sessions := [c7SessionA, c7SessionB] }

/-- A state with exponential growth mode. -/
def c3State : Simulation := { waitSampleState with growth := some "exp" }

/-- A state whose step size makes the jitter range empty. -/
def c10State : Simulation := { waitSampleState with batch_size := 2 }

theorem randrange_some_bounds {a b : ℤ} {k : Nat} {j : ℤ}
    (h : randrange a b k = some j) : a ≤ j ∧ j < b := by
  unfold randrange at h
  by_cases hlt : 0 < b - a
  · rw [if_pos hlt] at h
    have hj := Option.some.inj h
    have h0 : 0 ≤ (k : ℤ) % (b - a) := Int.emod_nonneg _ (by omega)
    have h1 : (k : ℤ) % (b - a) < b - a := Int.emod_lt_of_pos _ hlt
    omega
  · rw [if_neg hlt] at h
    cases h

theorem wait_eq_some {s s' : Simulation} {k : Nat}
    (h : Simulation.wait s k = some s') :
    ∃ j : ℤ,
      randrange (Simulation.minRange s) (Simulation.maxJitter s.batch_size) k = some j ∧
      s'.cur_time = s.cur_time + (s.batch_size : ℚ) + (j : ℚ) ∧
      s'.init_time = s.init_time ∧ s'.batch_size = s.batch_size ∧
      s'.always_forward = s.always_forward := by
  unfold Simulation.wait at h
  rw [Option.bind_eq_some] at h
  obtain ⟨j, hj, h⟩ := h
  rw [Option.map_eq_some'] at h
  obtain ⟨r, _, hr⟩ := h
  subst hr
  exact ⟨j, hj, rfl, rfl, rfl, rfl⟩

theorem one_le_of_pyTruncInt {q : ℚ} (h : 1 ≤ pyTruncInt q) : 1 ≤ q := by
  unfold pyTruncInt at h
  by_cases h0 : 0 ≤ q
  · rw [if_pos h0] at h
    exact_mod_cast Int.le_floor.mp h
  · rw [if_neg h0] at h
    push_neg at h0
    have : ⌈q⌉ ≤ 0 := Int.ceil_le.mpr (by exact_mod_cast le_of_lt h0)
    omega

theorem maxJitter_le_of_nonneg {b : ℤ} (hb : 0 ≤ b) :
    ((Simulation.maxJitter b : ℤ) : ℚ) ≤ (b : ℚ) * (3 / 10) := by
  unfold Simulation.maxJitter pyTruncInt
  have h0 : (0 : ℚ) ≤ (b : ℚ) * (3 / 10) := by
    have hbq : (0 : ℚ) ≤ (b : ℚ) := by exact_mod_cast hb
    nlinarith
  rw [if_pos h0]
  exact Int.floor_le _

theorem wait_success_facts {s : Simulation} {k : Nat} {j : ℤ}
    (hj : randrange (Simulation.minRange s) (Simulation.maxJitter s.batch_size) k = some j) :
    (10 : ℚ) / 3 ≤ (s.batch_size : ℚ) ∧ 1 ≤ Simulation.maxJitter s.batch_size := by
  obtain ⟨hl, hu⟩ := randrange_some_bounds hj
  have hlt : Simulation.minRange s < Simulation.maxJitter s.batch_size := lt_of_le_of_lt hl hu
  have hm : 1 ≤ Simulation.maxJitter s.batch_size := by
    unfold Simulation.minRange at hlt
    by_cases hf : s.always_forward <;> simp [hf] at hlt <;> omega
  have hm' : 1 ≤ pyTruncInt ((s.batch_size : ℚ) * (3 / 10)) := hm
  have hq : (1 : ℚ) ≤ (s.batch_size : ℚ) * (3 / 10) := one_le_of_pyTruncInt hm'
  exact ⟨by nlinarith, hm⟩

theorem wait_cur_le {s s' : Simulation} {k : Nat}
    (h : Simulation.wait s k = some s') : s.cur_time ≤ s'.cur_time := by
  obtain ⟨j, hj, hcur, -, -, -⟩ := wait_eq_some h
  obtain ⟨hl, hu⟩ := randrange_some_bounds hj
  obtain ⟨hbq, hm⟩ := wait_success_facts hj
  have hbz : (0 : ℤ) ≤ s.batch_size := by
    by_contra hneg
    push_neg at hneg
    have : (s.batch_size : ℚ) < 0 := by exact_mod_cast hneg
    linarith
  have hmle := maxJitter_le_of_nonneg hbz
  have hjl : -(Simulation.maxJitter s.batch_size) ≤ j := by
    unfold Simulation.minRange at hl
    by_cases hf : s.always_forward <;> simp [hf] at hl <;> omega
  have hjq : -((Simulation.maxJitter s.batch_size : ℤ) : ℚ) ≤ (j : ℚ) := by exact_mod_cast hjl
  rw [hcur]
  nlinarith

theorem wait_iter_le (ks : List Nat) :
    ∀ (s s' : Simulation), wait_iter s ks = some s' → s.cur_time ≤ s'.cur_time := by
  induction ks with
  | nil =>
    intro s s' h
    unfold wait_iter at h
    rw [Option.some.injEq] at h
    subst h
    exact le_refl _
  | cons k ks ih =>
    intro s s' h
    unfold wait_iter at h
    rw [Option.bind_eq_some] at h
    obtain ⟨s1, hw, h⟩ := h
    exact le_trans (wait_cur_le hw) (ih s1 s' h)

theorem setBySid_cons (sid : Nat) (e' x : Event) (xs : List Event) :
    Simulation.setBySid sid e' (x :: xs) =
      Simulation.setOne sid e' x :: Simulation.setBySid sid e' xs := rfl

theorem setBySid_append (sid : Nat) (e' : Event) (l1 l2 : List Event) :
    Simulation.setBySid sid e' (l1 ++ l2) =
      Simulation.setBySid sid e' l1 ++ Simulation.setBySid sid e' l2 :=
  List.map_append _ _ _

theorem setBySid_of_forall_ne {sid : Nat} {e' : Event} : ∀ {l : List Event},
    (∀ a ∈ l, a.sid ≠ sid) → Simulation.setBySid sid e' l = l
  | [], _ => rfl
  | x :: xs, h => by
    rw [setBySid_cons, setBySid_of_forall_ne (fun a ha => h a (List.mem_cons_of_mem _ ha))]
    simp only [Simulation.setOne, if_neg (h x (List.mem_cons_self x xs))]

theorem removeFirstSid_append {sid : Nat} {e' : Event} (he : e'.sid = sid)
    (rest : List Event) :
    ∀ (done : List Event), (∀ a ∈ done, a.sid ≠ sid) →
      Simulation.removeFirstSid sid (done ++ e' :: rest) = done ++ rest := by
  intro done
  induction done with
  | nil =>
    intro _
    simp [Simulation.removeFirstSid, he]
  | cons x xs ih =>
    intro h
    have hx : ¬ x.sid = sid := h x (List.mem_cons_self x xs)
    simp only [List.cons_append, Simulation.removeFirstSid, if_neg hx]
    exact congrArg (x :: .) (ih (fun a ha => h a (List.mem_cons_of_mem _ ha)))

theorem update_sessions_loop_spec (upd : Event → ℚ → Bool → Event) (elapsed : ℚ)
    (fwd : Bool) :
    ∀ (rest done : List Event),
      (∀ a ∈ done, ∀ b ∈ rest, a.sid ≠ b.sid) →
      (rest.map Event.sid).Nodup →
      Simulation.update_sessions_loop upd elapsed fwd rest (done ++ rest) =
        done ++ (rest.map (stepSession upd elapsed fwd)).filter Event.is_active := by
  intro rest
  induction rest with
  | nil =>
    intro done _ _
    simp [Simulation.update_sessions_loop]
  | cons e rest ih =>
    intro done hdisj hnd
    have hnd0 : (∀ a ∈ rest, ¬ a.sid = e.sid) ∧ (List.map Event.sid rest).Nodup := by
      simpa using hnd
    have hrest : ∀ a ∈ rest, a.sid ≠ e.sid := hnd0.1
    have hdone : ∀ a ∈ done, a.sid ≠ e.sid :=
      fun a ha => hdisj a ha e (List.mem_cons_self e rest)
    have hstep : Simulation.mutate upd e (e.current_timestamp + elapsed) fwd =
        stepSession upd elapsed fwd e := rfl
    have hsid : (stepSession upd elapsed fwd e).sid = e.sid := rfl
    simp only [Simulation.update_sessions_loop, hstep]
    have hset : Simulation.setBySid e.sid (stepSession upd elapsed fwd e)
        (done ++ e :: rest) = done ++ stepSession upd elapsed fwd e :: rest := by
      rw [setBySid_append, setBySid_cons, setBySid_of_forall_ne hdone,
        setBySid_of_forall_ne hrest]
      simp [Simulation.setOne]
    rw [hset]
    cases hact : Event.is_active (stepSession upd elapsed fwd e) with
    | true =>
      rw [if_pos rfl]
      have hsplit : done ++ stepSession upd elapsed fwd e :: rest =
          (done ++ [stepSession upd elapsed fwd e]) ++ rest := by
        simp
      rw [hsplit, ih (done ++ [stepSession upd elapsed fwd e])
        (by
          intro a ha b hb
          rcases List.mem_append.mp ha with ha' | ha'
          · exact hdisj a ha' b (List.mem_cons_of_mem _ hb)
          · have hae : a = stepSession upd elapsed fwd e := by simpa using ha'
            rw [hae, hsid]
            exact fun hcontra => hrest b hb hcontra.symm)
        hnd0.2]
      rw [List.map_cons, List.filter_cons_of_pos hact]
      simp
    | false =>
      rw [if_neg (by simp)]
      rw [removeFirstSid_append hsid rest done hdone]
      rw [ih done (fun a ha b hb => hdisj a ha b (List.mem_cons_of_mem _ hb)) hnd0.2]
      rw [List.map_cons, List.filter_cons_of_neg (by simp [hact])]

theorem length_filter_active (l : List Event) :
    (l.filter Event.is_active).length + (l.filter notActive).length = l.length := by
  induction l with
  | nil => rfl
  | cons e es ih =>
    cases he : e.active <;>
      simp [List.filter_cons, Event.is_active, notActive, he] <;> omega

theorem pyJsonEntries_spec (rec : List (String × PyVal)) :
    pyJsonEntries json_serial rec =
      (match firstUnsupported rec with
       | some t => Except.error ("Type " ++ t ++ " not serializable")
       | none => Except.ok (rec.map specEntry)) := by
  induction rec with
  | nil => rfl
  | cons kv rest ih =>
    rcases kv with ⟨k, v⟩
    cases v with
    | pystr s =>
      cases hfu : firstUnsupported rest <;>
        simp [pyJsonEntries, pyJsonVal, firstUnsupported, hfu, ih, specEntry, specRenderVal]
    | pyint n =>
      cases hfu : firstUnsupported rest <;>
        simp [pyJsonEntries, pyJsonVal, firstUnsupported, hfu, ih, specEntry, specRenderVal]
    | pybool b =>
      cases hfu : firstUnsupported rest <;>
        simp [pyJsonEntries, pyJsonVal, firstUnsupported, hfu, ih, specEntry, specRenderVal]
    | pynone =>
      cases hfu : firstUnsupported rest <;>
        simp [pyJsonEntries, pyJsonVal, firstUnsupported, hfu, ih, specEntry, specRenderVal]
    | pydt d =>
      cases hfu : firstUnsupported rest <;>
        simp [pyJsonEntries, pyJsonVal, json_serial, firstUnsupported, hfu, ih,
          specEntry, specRenderVal]
    | pyother t =>
      simp [pyJsonEntries, pyJsonVal, json_serial, PyVal.typeName, firstUnsupported]

/-- C1 (counterexample): the emission policy exactly as the claim states it
fails on the code at a session whose customEvent is unset: the run loop
emits for it (None compares unequal to the literal pageview and to the
modal event name), while the claim, which requires customEvent to be set,
predicts no emission. -/
theorem C1_counterexample :
    ¬ (Simulation.run_emits c1Session = true ↔ emitsSpecC1 c1Session) := by
  decide

/-- C1 (amended): after its advance, a session is emitted by the run loop
if and only if isNewPage is true, or isNewPage is false and customEvent
(set or not) differs from the literal pageview and either customEvent
differs from modalEventName or modal equals yieldModal.  This is the claim
with the requirement that customEvent be set removed: an unset customEvent
behaves as a value different from pageview and from the modal event name. -/
theorem C1_run_emission (e : Event) :
    Simulation.run_emits e = true ↔ emitsSpecC1Amended e := by
  unfold Simulation.run_emits emitsSpecC1Amended
  by_cases hnp : e.is_new_page = true
  · simp [hnp]
  · have hnp' : e.is_new_page = false := by
      cases h : e.is_new_page
      · rfl
      · exact absurd h hnp
    rw [if_neg hnp]
    by_cases hpv : e.custom_event = some "pageview"
    · rw [if_neg (by simp [hpv])]
      simp [hnp', hpv]
    · rw [if_pos ⟨hnp', hpv⟩]
      by_cases hme : some e.modal_event ≠ e.custom_event
      · rw [if_pos hme]
        constructor
        · intro _
          exact Or.inr ⟨hnp', hpv, Or.inl (fun hc => hme hc.symm)⟩
        · intro _
          rfl
      · push_neg at hme
        have hc : e.custom_event = some e.modal_event := hme.symm
        rw [hc] at hpv
        rw [if_neg (by simp [hme])]
        cases hm : e.modal <;> cases hy : e.yield_modal <;>
          simp [hnp', hpv, hc, hm, hy]

/-- C2: with the current rate r nonnegative and the uniform draw u in
[0, 1), create_sessions appends floor(r) or floor(r)+1 sessions to the
registry, the extra one exactly when u falls below the fractional part of
r — an event whose uniform probability is exactly that fractional part —
and floor plus fractional part reassemble r, so the expected number of new
sessions per step is exactly r. -/
theorem C2_create_sessions (s : Simulation) (u : ℚ) (gen : Nat → Event)
    (hr : 0 ≤ s.rate) (hu0 : 0 ≤ u) (hu1 : u < 1) :
    ((Simulation.create_sessions s u gen).cur_sessions.length =
        s.cur_sessions.length + (⌊s.rate⌋).toNat ∨
      (Simulation.create_sessions s u gen).cur_sessions.length =
        s.cur_sessions.length + (⌊s.rate⌋).toNat + 1) ∧
    ((Simulation.create_sessions s u gen).cur_sessions.length =
        s.cur_sessions.length + (⌊s.rate⌋).toNat + 1 ↔ u < pyMod1 s.rate) ∧
    MeasureTheory.volume (extraDrawSet (pyMod1 s.rate)) =
      ENNReal.ofReal ((pyMod1 s.rate : ℚ) : ℝ) ∧
    (⌊s.rate⌋ : ℚ) + pyMod1 s.rate = s.rate := by
  have hfr : pyMod1 s.rate = Int.fract s.rate := rfl
  have hf1 : pyMod1 s.rate < 1 := by rw [hfr]; exact Int.fract_lt_one _
  have hfl : 0 ≤ ⌊s.rate⌋ := Int.floor_nonneg.mpr hr
  have htr : pyTruncInt s.rate = ⌊s.rate⌋ := by simp [pyTruncInt, hr]
  have hlen : (Simulation.create_sessions s u gen).cur_sessions.length =
      s.cur_sessions.length +
        (⌊s.rate⌋ + Simulation.choices_1_0 (pyMod1 s.rate) u).toNat := by
    simp [Simulation.create_sessions, htr]
  have hvol : MeasureTheory.volume (extraDrawSet (pyMod1 s.rate)) =
      ENNReal.ofReal ((pyMod1 s.rate : ℚ) : ℝ) := by
    have hset : extraDrawSet (pyMod1 s.rate) =
        Set.Ico (0 : ℝ) ((pyMod1 s.rate : ℚ) : ℝ) := by
      ext y
      simp only [extraDrawSet, Set.mem_setOf_eq, Set.mem_Ico]
      constructor
      · rintro ⟨⟨h1, _⟩, h3⟩
        exact ⟨h1, h3⟩
      · rintro ⟨h1, h2⟩
        refine ⟨⟨h1, ?_⟩, h2⟩
        have hlt : ((pyMod1 s.rate : ℚ) : ℝ) < 1 := by exact_mod_cast hf1
        linarith
    rw [hset, Real.volume_Ico, sub_zero]
  refine ⟨?_, ?_, hvol, ?_⟩
  · by_cases hc : u < pyMod1 s.rate
    · right
      rw [hlen]
      simp only [Simulation.choices_1_0, if_pos hc]
      omega
    · left
      rw [hlen]
      simp only [Simulation.choices_1_0, if_neg hc]
      omega
  · constructor
    · intro hl
      by_contra hc
      rw [hlen] at hl
      simp only [Simulation.choices_1_0, if_neg hc] at hl
      omega
    · intro hc
      rw [hlen]
      simp only [Simulation.choices_1_0, if_pos hc]
      omega
  · rw [hfr]
    exact Int.floor_add_fract s.rate

/-- C2 (witness): the claim's theorem instantiated at a state with rate 3/2
and the uniform draw 1/4: two sessions are appended (floor 1 plus the
extra), the extra-draw set has probability 1/2, and 1 + 1/2 = 3/2. -/
theorem C2_create_sessions_witness :
    ((0 : ℚ) ≤ c2State.rate ∧ (0 : ℚ) ≤ (1 / 4 : ℚ) ∧ (1 / 4 : ℚ) < 1) ∧
    (((Simulation.create_sessions c2State (1 / 4) sampleGen).cur_sessions.length =
        c2State.cur_sessions.length + (⌊c2State.rate⌋).toNat ∨
      (Simulation.create_sessions c2State (1 / 4) sampleGen).cur_sessions.length =
        c2State.cur_sessions.length + (⌊c2State.rate⌋).toNat + 1) ∧
    ((Simulation.create_sessions c2State (1 / 4) sampleGen).cur_sessions.length =
        c2State.cur_sessions.length + (⌊c2State.rate⌋).toNat + 1 ↔
      (1 / 4 : ℚ) < pyMod1 c2State.rate) ∧
    MeasureTheory.volume (extraDrawSet (pyMod1 c2State.rate)) =
      ENNReal.ofReal ((pyMod1 c2State.rate : ℚ) : ℝ) ∧
    (⌊c2State.rate⌋ : ℚ) + pyMod1 c2State.rate = c2State.rate) :=
  ⟨⟨by norm_num [c2State, waitSampleState], by norm_num, by norm_num⟩,
    C2_create_sessions c2State (1 / 4) sampleGen
      (by norm_num [c2State, waitSampleState]) (by norm_num) (by norm_num)⟩

/-- C3: for every growth mode and draws in their documented ranges
(triangular output in [0, 1], exponential draw nonnegative, uniform draw in
[0, 1)), the session timestamp equals initTime plus a factor in [0, 1]
times the horizon length, hence lies in [initTime, horizonEnd]; in the
exponential modes the factor is (8 - x)/8 for x below 8 and 1 otherwise. -/
theorem C3_randomize_sess_ts (s : Simulation) (t x u : ℚ)
    (hts : s.init_time ≤ s.stop_time) (ht0 : 0 ≤ t) (ht1 : t ≤ 1)
    (hx : 0 ≤ x) (hu0 : 0 ≤ u) (hu1 : u < 1) :
    Simulation.randomize_sess_ts s t x u =
      s.init_time +
        Simulation.growth_shape_value s.growth t x u * (s.stop_time - s.init_time) ∧
    0 ≤ Simulation.growth_shape_value s.growth t x u ∧
    Simulation.growth_shape_value s.growth t x u ≤ 1 ∧
    s.init_time ≤ Simulation.randomize_sess_ts s t x u ∧
    Simulation.randomize_sess_ts s t x u ≤ s.stop_time ∧
    ((s.growth = some "exp" ∨ s.growth = some "exponential") →
      Simulation.growth_shape_value s.growth t x u =
        (if x < 8 then (8 - x) / 8 else 1)) := by
  have hv0 : 0 ≤ Simulation.growth_shape_value s.growth t x u := by
    unfold Simulation.growth_shape_value
    split_ifs with h1 h2 h3
    · linarith
    · have h8 : (0 : ℚ) ≤ 8 - x := by linarith
      exact div_nonneg h8 (by norm_num)
    · norm_num
    · exact hu0
  have hv1 : Simulation.growth_shape_value s.growth t x u ≤ 1 := by
    unfold Simulation.growth_shape_value
    split_ifs with h1 h2 h3
    · linarith
    · rw [div_le_one (by norm_num)]
      linarith
    · exact le_refl 1
    · linarith
  have hexp : (s.growth = some "exp" ∨ s.growth = some "exponential") →
      Simulation.growth_shape_value s.growth t x u =
        (if x < 8 then (8 - x) / 8 else 1) := by
    intro hg
    unfold Simulation.growth_shape_value
    rcases hg with h | h <;> rw [h] <;> rw [if_neg (by decide), if_pos (by decide)]
  refine ⟨rfl, hv0, hv1, ?_, ?_, hexp⟩
  · unfold Simulation.randomize_sess_ts
    nlinarith [mul_nonneg hv0 (show (0 : ℚ) ≤ s.stop_time - s.init_time by linarith)]
  · unfold Simulation.randomize_sess_ts
    nlinarith [mul_le_of_le_one_left
      (show (0 : ℚ) ≤ s.stop_time - s.init_time by linarith) hv1]

/-- C3 (witness): the claim's theorem instantiated at the exponential-mode
state with draws t = 0, x = 1, u = 0: the factor is 7/8 and the timestamp
lies inside the one-day horizon. -/
theorem C3_randomize_sess_ts_witness :
    (c3State.init_time ≤ c3State.stop_time ∧ (0 : ℚ) ≤ 0 ∧ (0 : ℚ) ≤ 1 ∧
      (0 : ℚ) ≤ 1 ∧ (0 : ℚ) < 1) ∧
    (Simulation.randomize_sess_ts c3State 0 1 0 =
      c3State.init_time +
        Simulation.growth_shape_value c3State.growth 0 1 0 *
          (c3State.stop_time - c3State.init_time) ∧
    0 ≤ Simulation.growth_shape_value c3State.growth 0 1 0 ∧
    Simulation.growth_shape_value c3State.growth 0 1 0 ≤ 1 ∧
    c3State.init_time ≤ Simulation.randomize_sess_ts c3State 0 1 0 ∧
    Simulation.randomize_sess_ts c3State 0 1 0 ≤ c3State.stop_time ∧
    ((c3State.growth = some "exp" ∨ c3State.growth = some "exponential") →
      Simulation.growth_shape_value c3State.growth 0 1 0 =
        (if (1 : ℚ) < 8 then (8 - 1) / 8 else 1))) :=
  ⟨⟨by norm_num [c3State, waitSampleState], by norm_num, by norm_num, by norm_num,
      by norm_num⟩,
    C3_randomize_sess_ts c3State 0 1 0 (by norm_num [c3State, waitSampleState])
      (by norm_num) (by norm_num) (by norm_num) (by norm_num) (by norm_num)⟩

/-- C4: a successful wait advances the clock by exactly batch_size + j
seconds, where the integer jitter j drawn by randrange lies in
[0, int(0.3 * batch_size)) when always_forward and in
[-int(0.3 * batch_size), int(0.3 * batch_size)) otherwise; the clock never
moves backwards over one wait, hence over any successful sequence of waits
cur_time is non-decreasing and never drops below an init_time it started
at or above. -/
theorem C4_wait (s s' s2 : Simulation) (k : Nat) (j : ℤ) (ks : List Nat)
    (hj : randrange (Simulation.minRange s) (Simulation.maxJitter s.batch_size) k =
      some j)
    (hw : Simulation.wait s k = some s')
    (hiter : wait_iter s ks = some s2) :
    (s.always_forward = true → 0 ≤ j) ∧
    (s.always_forward = false → -(Simulation.maxJitter s.batch_size) ≤ j) ∧
    j < Simulation.maxJitter s.batch_size ∧
    s'.cur_time = s.cur_time + (s.batch_size : ℚ) + (j : ℚ) ∧
    s.cur_time ≤ s'.cur_time ∧
    s.cur_time ≤ s2.cur_time ∧
    (s.init_time ≤ s.cur_time → s.init_time ≤ s2.cur_time) := by
  obtain ⟨hl, hu⟩ := randrange_some_bounds hj
  obtain ⟨j', hj', hcur, -, -, -⟩ := wait_eq_some hw
  have hjj : j' = j := by
    rw [hj] at hj'
    exact (Option.some.inj hj').symm
  subst hjj
  have hiterle := wait_iter_le ks s s2 hiter
  refine ⟨?_, ?_, hu, hcur, wait_cur_le hw, hiterle, fun h0 => le_trans h0 hiterle⟩
  · intro hf
    unfold Simulation.minRange at hl
    rw [if_pos hf] at hl
    exact hl
  · intro hf
    unfold Simulation.minRange at hl
    rw [if_neg (by simp [hf])] at hl
    exact hl

/-- C4 (witness): the claim's theorem at the concrete forward state with
step 10 s and draw 5: the jitter is 2, within [0, 3), and the clock moves
from 0 to 12. -/
theorem C4_wait_witness :
    randrange (Simulation.minRange waitSampleState)
        (Simulation.maxJitter waitSampleState.batch_size) 5 = some 2 ∧
    Simulation.wait waitSampleState 5 = some waitSampleState2 ∧
    wait_iter waitSampleState [] = some waitSampleState ∧
    ((waitSampleState.always_forward = true → (0 : ℤ) ≤ 2) ∧
     (waitSampleState.always_forward = false →
        -(Simulation.maxJitter waitSampleState.batch_size) ≤ 2) ∧
     (2 : ℤ) < Simulation.maxJitter waitSampleState.batch_size ∧
     waitSampleState2.cur_time =
       waitSampleState.cur_time + (waitSampleState.batch_size : ℚ) + ((2 : ℤ) : ℚ) ∧
     waitSampleState.cur_time ≤ waitSampleState2.cur_time ∧
     waitSampleState.cur_time ≤ waitSampleState.cur_time ∧
     (waitSampleState.init_time ≤ waitSampleState.cur_time →
        waitSampleState.init_time ≤ waitSampleState.cur_time)) :=
  ⟨by
      norm_num [randrange, Simulation.minRange, Simulation.maxJitter, pyTruncInt,
        waitSampleState],
    by
      have hr : randrange (Simulation.minRange waitSampleState)
          (Simulation.maxJitter waitSampleState.batch_size) 5 = some 2 := by
        norm_num [randrange, Simulation.minRange, Simulation.maxJitter, pyTruncInt,
          waitSampleState]
      unfold Simulation.wait
      rw [hr]
      norm_num [Simulation.get_rate_per_step, Simulation.get_steps_per_hour, hourOf,
        waitSampleState, waitSampleState2, sampleConfig],
    rfl,
    C4_wait waitSampleState waitSampleState2 waitSampleState 5 2 []
      (by
        norm_num [randrange, Simulation.minRange, Simulation.maxJitter, pyTruncInt,
          waitSampleState])
      (by
        have hr : randrange (Simulation.minRange waitSampleState)
            (Simulation.maxJitter waitSampleState.batch_size) 5 = some 2 := by
          norm_num [randrange, Simulation.minRange, Simulation.maxJitter, pyTruncInt,
            waitSampleState]
        unfold Simulation.wait
        rw [hr]
        norm_num [Simulation.get_rate_per_step, Simulation.get_steps_per_hour, hourOf,
          waitSampleState, waitSampleState2, sampleConfig])
      rfl⟩

/-- C5 (counterexample): growth-shape selection is not case-insensitive:
the mode string Linear (a casing of linear) selects the uniform shape and
surfaces the uniform draw, while the exact lowercase string linear selects
the linear shape. -/
theorem C5_counterexample :
    growthShapeOf (some "Linear") = GrowthShape.uniformShape ∧
    growthShapeOf (some "linear") = GrowthShape.linearShape ∧
    Simulation.growth_shape_value (some "Linear") 0 0 (1 / 2) = 1 / 2 ∧
    Simulation.growth_shape_value (some "linear") 0 0 (1 / 2) = 1 := by
  refine ⟨by decide, by decide, ?_, ?_⟩
  · rw [Simulation.growth_shape_value, if_neg (by decide), if_neg (by decide)]
  · rw [Simulation.growth_shape_value, if_pos (by decide)]
    norm_num

/-- C5 (amended): growth-shape selection is by exact, case-sensitive string
match: precisely the strings lineal, lin, linear select the linear shape,
precisely exp, exponential select the exponential shape, and every other
mode, an absent one included, falls back to the uniform shape; the value
randomize_sess_ts uses always agrees with the selected shape. -/
theorem C5_growth_dispatch (g : Option String) (t x u : ℚ) :
    Simulation.growth_shape_value g t x u = shapeValue (growthShapeOf g) t x u ∧
    (growthShapeOf g = GrowthShape.linearShape ↔
      (g = some "lineal" ∨ g = some "lin" ∨ g = some "linear")) ∧
    (growthShapeOf g = GrowthShape.expShape ↔
      (g = some "exp" ∨ g = some "exponential")) ∧
    growthShapeOf none = GrowthShape.uniformShape := by
  refine ⟨?_, ?_, ?_, by decide⟩
  · unfold Simulation.growth_shape_value growthShapeOf shapeValue
    split_ifs <;> rfl
  · unfold growthShapeOf
    split_ifs with h1 h2
    · simp [h1]
    · constructor
      · intro hcontra
        cases hcontra
      · intro hcontra
        exact absurd hcontra h1
    · constructor
      · intro hcontra
        cases hcontra
      · intro hcontra
        exact absurd hcontra h1
  · unfold growthShapeOf
    split_ifs with h1 h2
    · constructor
      · intro hcontra
        cases hcontra
      · intro hcontra
        rcases h1 with h | h | h <;> subst h <;> revert hcontra <;> decide
    · simp [h2]
    · constructor
      · intro hcontra
        cases hcontra
      · intro hcontra
        exact absurd hcontra h2

/-- C6 (counterexample): construction does NOT fail for every non-positive
step size: with batch_size = -10 (and one simulated day) construction
succeeds and yields a simulation. -/
theorem C6_counterexample :
    (simulation_init 10000 (-10) 0 1 none true false sampleConfig).isSome = true := by
  norm_num [simulation_init, Simulation.get_rate_per_step,
    Simulation.get_steps_per_hour]

/-- C6 (amended): construction fails exactly when the simulated duration is
non-positive (the assert) or the step size is zero (the division by zero in
the steps-per-hour computation); negative step sizes are accepted. -/
theorem C6_construction (spd : ℚ) (b : ℤ) (it sd : ℚ) (g : Option String)
    (af yj : Bool) (cv : Nat → ℚ) :
    (simulation_init spd b it sd g af yj cv).isSome = true ↔ (0 < sd ∧ b ≠ 0) := by
  unfold simulation_init Simulation.get_rate_per_step Simulation.get_steps_per_hour
  by_cases hsd : 0 < sd
  · by_cases hb : b = 0 <;> simp [hsd, hb]
  · simp [hsd]

/-- C7: one update_all_sessions call advances every registry session exactly
once — at the session's own timestamp plus the elapsed duration, with the
forward flag — and leaves exactly the sessions that report active after
their advance, in order: the registry equals the advanced snapshot filtered
by activity, and its size is N minus the number K of sessions that went
inactive, despite removal happening during iteration. -/
theorem C7_update_all_sessions (upd : Event → ℚ → Bool → Event) (s : Simulation)
    (hnd : (s.cur_sessions.map Event.sid).Nodup) :
    (Simulation.update_all_sessions upd s).cur_sessions =
      (s.cur_sessions.map
          (stepSession upd (Simulation.get_curr_duration s) s.always_forward)).filter
        Event.is_active ∧
    (Simulation.update_all_sessions upd s).cur_sessions.length =
      s.cur_sessions.length -
        ((s.cur_sessions.map
            (stepSession upd (Simulation.get_curr_duration s) s.always_forward)).filter
          notActive).length := by
  have hmain := update_sessions_loop_spec upd (Simulation.get_curr_duration s)
    s.always_forward s.cur_sessions [] (by simp) hnd
  rw [List.nil_append] at hmain
  have heq : (Simulation.update_all_sessions upd s).cur_sessions =
      (s.cur_sessions.map
          (stepSession upd (Simulation.get_curr_duration s) s.always_forward)).filter
        Event.is_active := by
    rw [Simulation.update_all_sessions]
    simpa using hmain
  refine ⟨heq, ?_⟩
  rw [heq]
  have hpart := length_filter_active
    (s.cur_sessions.map (stepSession upd (Simulation.get_curr_duration s) s.always_forward))
  have hlenmap : (s.cur_sessions.map
      (stepSession upd (Simulation.get_curr_duration s) s.always_forward)).length =
      s.cur_sessions.length := List.length_map _ _
  omega

/-- C7 (witness): the claim's theorem at a registry of two sessions with
distinct identities of which exactly one goes inactive: the surviving
registry is the advanced active session alone. -/
theorem C7_update_all_sessions_witness :
    (c7State.cur_sessions.map Event.sid).Nodup ∧
    ((Simulation.update_all_sessions c7Upd c7State).cur_sessions =
      (c7State.cur_sessions.map
          (stepSession c7Upd (Simulation.get_curr_duration c7State)
            c7State.always_forward)).filter Event.is_active ∧
     (Simulation.update_all_sessions c7Upd c7State).cur_sessions.length =
      c7State.cur_sessions.length -
        ((c7State.cur_sessions.map
            (stepSession c7Upd (Simulation.get_curr_duration c7State)
              c7State.always_forward)).filter notActive).length) :=
  ⟨by decide, C7_update_all_sessions c7Upd c7State (by decide)⟩

/-- C8: the claim is what the code intends but not what it does: the
default start time datetime.now() in the def line is evaluated once at
module import, so two constructions at different wall-clock moments that
omit init_time share the import-time default instead of each getting its
own construction time. -/
theorem C8_default_init_time :
    initTimeArg 1000 2000 none = initTimeArg 1000 3000 none ∧
    initTimeArg 1000 2000 none ≠ 2000 ∧
    initTimeArg 1000 3000 none ≠ 3000 := by
  refine ⟨rfl, ?_, ?_⟩ <;> norm_num [initTimeArg, moduleDefaultInitTime]

/-- C9: with the output-as-text flag false the structured record is emitted
unserialized; with it true the emitted event is the json text of the record
with every datetime rendered in its ISO-8601 form, unless some field value
is neither a supported primitive nor a timestamp, in which case emission
fails with an error naming the offending type (the first such value, in
record order). -/
theorem C9_yield_event (rec : List (String × PyVal)) :
    Simulation.yield_event false rec = Except.ok (PyOut.record rec) ∧
    Simulation.yield_event true rec =
      (match firstUnsupported rec with
       | some t => Except.error ("Type " ++ t ++ " not serializable")
       | none =>
         Except.ok (PyOut.text
           ("\x7b" ++ String.intercalate ", " (rec.map specEntry) ++ "\x7d"))) := by
  constructor
  · rfl
  · unfold Simulation.yield_event pyJsonDumps
    rw [pyJsonEntries_spec]
    cases firstUnsupported rec <;> simp

/-- C10: with batch_size 1, 2 or 3 the jitter bound int(0.3 * batch_size)
is 0, so every wait call draws from the empty range [0, 0) (or [-0, 0))
and raises, for either value of always_forward; hence one full run-loop
iteration aborts without yielding anything, while such step sizes are
accepted at construction. -/
theorem C10_small_batch (s : Simulation) (upd : Event → ℚ → Bool → Event)
    (u : ℚ) (gen : Nat → Event) (k : Nat)
    (hb : s.batch_size = 1 ∨ s.batch_size = 2 ∨ s.batch_size = 3) :
    Simulation.wait s k = none ∧
    Simulation.run_step upd s u gen k = none ∧
    (simulation_init 10000 1 0 1 none true false sampleConfig).isSome = true ∧
    (simulation_init 10000 2 0 1 none true false sampleConfig).isSome = true ∧
    (simulation_init 10000 3 0 1 none true false sampleConfig).isSome = true := by
  have hmj : Simulation.maxJitter s.batch_size = 0 := by
    rcases hb with h | h | h <;> rw [h] <;>
      norm_num [Simulation.maxJitter, pyTruncInt]
  have hwz : ∀ (s2 : Simulation), s2.batch_size = s.batch_size →
      ∀ (k2 : Nat), Simulation.wait s2 k2 = none := by
    intro s2 hb2 k2
    unfold Simulation.wait randrange Simulation.minRange
    rw [hb2, hmj]
    by_cases hf : s2.always_forward <;> simp [hf]
  have hinit : ∀ b : ℤ, b ≠ 0 →
      (simulation_init 10000 b 0 1 none true false sampleConfig).isSome = true := by
    intro b hbne
    norm_num [simulation_init, Simulation.get_rate_per_step,
      Simulation.get_steps_per_hour, hbne]
  refine ⟨hwz s rfl k, ?_, hinit 1 (by norm_num), hinit 2 (by norm_num),
    hinit 3 (by norm_num)⟩
  unfold Simulation.run_step
  dsimp only
  rw [hwz (Simulation.create_sessions (Simulation.update_all_sessions upd s) u gen)
    rfl k]

/-- C10 (witness): the claim's theorem at a concrete state with step size 2:
wait fails and the run-loop iteration yields nothing. -/
theorem C10_small_batch_witness :
    (c10State.batch_size = 1 ∨ c10State.batch_size = 2 ∨ c10State.batch_size = 3) ∧
    (Simulation.wait c10State 0 = none ∧
     Simulation.run_step c7Upd c10State 0 sampleGen 0 = none ∧
     (simulation_init 10000 1 0 1 none true false sampleConfig).isSome = true ∧
     (simulation_init 10000 2 0 1 none true false sampleConfig).isSome = true ∧
     (simulation_init 10000 3 0 1 none true false sampleConfig).isSome = true) :=
  ⟨Or.inr (Or.inl rfl),
    C10_small_batch c10State c7Upd 0 sampleGen 0 (Or.inr (Or.inl rfl))⟩
